import Mathlib

/-! Shallow embedding of the casualty-estimation engine of the citynuker
repository (`populationCalculations` and `populationDataSources` modules):
geometry helpers, the population-density heuristic, the two casualty
strategies (scalar ring density and population-grid integration), the
external-data fallback chain, and the display formatter.  JavaScript numbers
are modelled as real numbers, `Math.round` as Mathlib's `round` (round half
towards positive infinity), and counts obtained by rounding as integers. -/

namespace CityNuker

/-- Injury-severity fractions of one effect zone (an `INJURY_DISTRIBUTION` entry). -/
structure InjuryDist where
  severe : ℝ
  moderate : ℝ
  light : ℝ

/-- Rounded per-zone injury counts. -/
structure InjuryCounts where
  severe : ℤ
  moderate : ℤ
  light : ℤ

/-- One entry of the zone list built inside `calculateCasualties`. -/
structure Zone where
  name : String
  radius : ℝ
  fatalityRate : ℝ
  injuries : InjuryDist

/-- Latitude/longitude pair in decimal degrees. -/
structure LatLng where
  lat : ℝ
  lng : ℝ

/-- Bounding box of a population grid. -/
structure GridBounds where
  north : ℝ
  south : ℝ
  east : ℝ
  west : ℝ

/-- Rasterized population grid (the `PopulationGrid` interface). -/
structure PopulationGrid where
  bounds : GridBounds
  resolution : ℝ
  data : List (List ℝ)

/-- Result record of `estimatePopulationDensity` (the `PopulationData` interface). -/
structure PopulationData where
  totalPopulation : ℝ
  populationDensity : ℝ
  urbanDensityFactor : ℝ
  populationGrid : Option PopulationGrid

/-- Per-zone output record (the `CasualtyEstimate` interface). -/
structure CasualtyEstimate where
  zone : String
  radius : ℝ
  area : ℝ
  populationAffected : ℤ
  fatalities : ℤ
  injuries : InjuryCounts
  description : String

/-- Zone argument of `calculateCasualtiesWithRealData`. -/
structure BlastZone where
  radius : ℝ
  fatalityRate : ℝ

/-- Result entry of `calculateCasualtiesWithRealData`. -/
structure RealDataResult where
  radius : ℝ
  populationAffected : ℤ
  fatalities : ℤ

/-- Totals block of `CasualtyData`. -/
structure Totals where
  populationAffected : ℤ
  fatalities : ℤ
  injuries : ℤ

/-- Medical-burden block of `CasualtyData`. -/
structure MedicalBurden where
  severeTrauma : ℤ
  burns : ℤ
  radiationSickness : ℤ
  combinedInjuries : ℤ

/-- Aggregate output of `calculateCasualties` (the `CasualtyData` interface). -/
structure CasualtyData where
  estimates : List CasualtyEstimate
  totals : Totals
  medicalBurden : MedicalBurden
  usingRealData : Bool

/-- Blast-effect radii record handed to `calculateCasualties`: `fireball` in
meters, every other field in kilometres, exactly as in the source. -/
structure BlastEffects where
  fireball : ℝ
  psi20 : ℝ
  psi5 : ℝ
  psi2 : ℝ
  psi1 : ℝ
  thermalThird : ℝ
  thermalSecond : ℝ
  thermalFirst : ℝ
  rem500 : ℝ
  rem100 : ℝ

/-- Source `calculateArea`: area in km² of a circle of radius `radiusMeters`. -/
noncomputable def calculateArea (radiusMeters : ℝ) : ℝ :=
  let radiusKm := radiusMeters / 1000
  Real.pi * radiusKm * radiusKm

/-- Source `calculateRingPopulation`: rounded population of the ring between
the two radii at the effective density. -/
noncomputable def calculateRingPopulation (innerRadius outerRadius populationDensity
    urbanFactor : ℝ) : ℤ :=
  let outerArea := calculateArea outerRadius
  let innerArea := calculateArea innerRadius
  let ringArea := outerArea - innerArea
  let effectiveDensity := populationDensity * urbanFactor
  round (ringArea * effectiveDensity)

/-- Source `getZoneDescription`: static text keyed by zone name. -/
def getZoneDescription (zoneName : String) : String :=
  if zoneName = "Fireball" then "Complete vaporization and incineration"
  else if zoneName = "20 psi overpressure" then "Reinforced concrete buildings destroyed"
  else if zoneName = "5 psi overpressure" then "Most buildings collapse, widespread fatalities"
  else if zoneName = "500 rem radiation" then "Lethal radiation dose, death within days"
  else if zoneName = "3rd degree burns" then "Severe burns requiring specialized treatment"
  else if zoneName = "2 psi overpressure" then "Residential buildings severely damaged"
  else if zoneName = "100 rem radiation" then "Radiation sickness, increased cancer risk"
  else if zoneName = "2nd degree burns" then "Painful burns, risk of infection"
  else if zoneName = "1 psi overpressure" then "Windows shattered, light injuries"
  else if zoneName = "1st degree burns" then "Superficial burns similar to sunburn"
  else "Blast effect zone"

/-- Ring-density strategy loop of `calculateCasualties`: the `forEach` over
the sorted zones carrying `previousRadius` and `cumulativeFatalities`.
A zone whose radius is zero (JavaScript falsiness of `zone.radius`) or does
not exceed the previous processed radius is skipped without touching state.
`Math.round` is modelled on exact reals (ties round up); the source rounds
IEEE doubles, which on a product that lies exactly on a rounding tie in the
reals can round one lower (see `doubleSevereProduct`). -/
noncomputable def processZones (populationDensity urbanDensityFactor : ℝ) :
    List Zone → ℝ → ℤ → List CasualtyEstimate
  | [], _, _ => []
  | zone :: rest, previousRadius, cumulativeFatalities =>
    if zone.radius = 0 ∨ zone.radius ≤ previousRadius then
      processZones populationDensity urbanDensityFactor rest previousRadius cumulativeFatalities
    else
      let ringPopulation :=
        calculateRingPopulation previousRadius zone.radius populationDensity urbanDensityFactor
      let survivingPopulation := max 0 (ringPopulation - cumulativeFatalities)
      let zoneFatalities := round ((survivingPopulation : ℝ) * zone.fatalityRate)
      let survivors := survivingPopulation - zoneFatalities
      { zone := zone.name
        radius := zone.radius
        area := calculateArea zone.radius - calculateArea previousRadius
        populationAffected := ringPopulation
        fatalities := zoneFatalities
        injuries :=
          { severe := round ((survivors : ℝ) * zone.injuries.severe)
            moderate := round ((survivors : ℝ) * zone.injuries.moderate)
            light := round ((survivors : ℝ) * zone.injuries.light) }
        description := getZoneDescription zone.name } ::
        processZones populationDensity urbanDensityFactor rest zone.radius
          (cumulativeFatalities + zoneFatalities)

/-- Final value of the `previousRadius` state variable after the ring-density
loop has consumed a zone list (the skip test only inspects radii, so this
mirror of the loop needs no density data). -/
noncomputable def finalRadius : List Zone → ℝ → ℝ
  | [], previousRadius => previousRadius
  | zone :: rest, previousRadius =>
    if zone.radius = 0 ∨ zone.radius ≤ previousRadius then
      finalRadius rest previousRadius
    else
      finalRadius rest zone.radius

/-- Two-argument arctangent: JavaScript `Math.atan2 y x` modelled as the
argument of the complex number with real part `x` and imaginary part `y`. -/
noncomputable def atan2 (y x : ℝ) : ℝ :=
  Complex.arg { re := x, im := y }

/-- Source `haversineDistance` on a spherical Earth of radius 6371000 m. -/
noncomputable def haversineDistance (point1 point2 : LatLng) : ℝ :=
  let earthR : ℝ := 6371000
  let lat1Rad := point1.lat * Real.pi / 180
  let lat2Rad := point2.lat * Real.pi / 180
  let deltaLat := (point2.lat - point1.lat) * Real.pi / 180
  let deltaLng := (point2.lng - point1.lng) * Real.pi / 180
  let a := Real.sin (deltaLat / 2) * Real.sin (deltaLat / 2) +
    Real.cos lat1Rad * Real.cos lat2Rad *
    Real.sin (deltaLng / 2) * Real.sin (deltaLng / 2)
  let c := 2 * atan2 (Real.sqrt a) (Real.sqrt (1 - a))
  earthR * c

/-- Cell of a grid's data array, `0` outside its extent (the source only reads
indices inside the iteration bounds). -/
def cellAt (grid : PopulationGrid) (row col : ℕ) : ℝ :=
  (grid.data.getD row []).getD col 0

/-- Source `calculatePopulationInCircle`: rounded sum of all grid cells whose
centre lies within `radiusMeters` of `center` (inclusive haversine test). -/
noncomputable def calculatePopulationInCircle (center : LatLng) (radiusMeters : ℝ)
    (populationGrid : PopulationGrid) : ℤ :=
  let bounds := populationGrid.bounds
  let latRange := bounds.north - bounds.south
  let lngRange := bounds.east - bounds.west
  let gridHeight := populationGrid.data.length
  let gridWidth := (populationGrid.data.headD []).length
  round (∑ row ∈ Finset.range gridHeight, ∑ col ∈ Finset.range gridWidth,
    (let cellLat := bounds.south + ((row : ℝ) + 0.5) * (latRange / (gridHeight : ℝ))
     let cellLng := bounds.west + ((col : ℝ) + 0.5) * (lngRange / (gridWidth : ℝ))
     if haversineDistance center ⟨cellLat, cellLng⟩ ≤ radiusMeters then
       cellAt populationGrid row col
     else 0))

/-- Loop body of `calculateCasualtiesWithRealData`, recursing over the sorted
zone list; `innerRadius` holds the previous zone's radius (`0` before the
first zone) and `cumulativeFatalities` the survivor-cascade state.  Note that
this loop, unlike the ring-density loop, never skips a zone. -/
noncomputable def realDataLoop (populationGrid : PopulationGrid) (blastCenter : LatLng) :
    List BlastZone → ℝ → ℤ → List RealDataResult
  | [], _, _ => []
  | zone :: rest, innerRadius, cumulativeFatalities =>
    let totalPopInZone := calculatePopulationInCircle blastCenter zone.radius populationGrid
    let totalPopInInnerZone :=
      if 0 < innerRadius then
        calculatePopulationInCircle blastCenter innerRadius populationGrid
      else 0
    let ringPopulation := totalPopInZone - totalPopInInnerZone
    let survivingPopulation := max 0 (ringPopulation - cumulativeFatalities)
    let zoneFatalities := round ((survivingPopulation : ℝ) * zone.fatalityRate)
    ⟨zone.radius, ringPopulation, zoneFatalities⟩ ::
      realDataLoop populationGrid blastCenter rest zone.radius
        (cumulativeFatalities + zoneFatalities)

/-- Source `calculateCasualtiesWithRealData`: sort ascending by radius (the
JavaScript stable sort with comparator `a.radius - b.radius`), then run the
survivor cascade over full-disc grid sums. -/
noncomputable def calculateCasualtiesWithRealData (blastZones : List BlastZone)
    (populationGrid : PopulationGrid) (blastCenter : LatLng) : List RealDataResult :=
  realDataLoop populationGrid blastCenter
    (List.insertionSort (fun a b => a.radius ≤ b.radius) blastZones) 0 0

/-- Grid-strategy estimate assembly in `calculateCasualties`: for each zone of
the sorted list, look up the result entry with the same radius and build an
estimate from it; `prevRadius` is the previous zone's radius in the sorted
list (`0` for the first), used only for the `area` field. -/
noncomputable def gridEstimates (results : List RealDataResult) :
    List Zone → ℝ → List CasualtyEstimate
  | [], _ => []
  | zone :: rest, prevRadius =>
    match results.find? (fun r => decide (r.radius = zone.radius)) with
    | none => gridEstimates results rest zone.radius
    | some realData =>
      let survivors := realData.populationAffected - realData.fatalities
      { zone := zone.name
        radius := zone.radius
        area := calculateArea zone.radius - calculateArea prevRadius
        populationAffected := realData.populationAffected
        fatalities := realData.fatalities
        injuries :=
          { severe := round ((survivors : ℝ) * zone.injuries.severe)
            moderate := round ((survivors : ℝ) * zone.injuries.moderate)
            light := round ((survivors : ℝ) * zone.injuries.light) }
        description := getZoneDescription zone.name } ::
        gridEstimates results rest zone.radius

/-- Zone table constructed inside `calculateCasualties` before sorting: the
static `FATALITY_RATES` and `INJURY_DISTRIBUTION` constants, with kilometre
fields converted to meters (fireball already in meters). -/
noncomputable def rawZones (blastEffects : BlastEffects) : List Zone :=
  [ ⟨"Fireball", blastEffects.fireball, 1.0, ⟨1.0, 0, 0⟩⟩,
    ⟨"20 psi overpressure", blastEffects.psi20 * 1000, 0.98, ⟨1.0, 0, 0⟩⟩,
    ⟨"5 psi overpressure", blastEffects.psi5 * 1000, 0.50, ⟨0.7, 0.2, 0.1⟩⟩,
    ⟨"500 rem radiation", blastEffects.rem500 * 1000, 0.90, ⟨1.0, 0, 0⟩⟩,
    ⟨"3rd degree burns", blastEffects.thermalThird * 1000, 0.50, ⟨1.0, 0, 0⟩⟩,
    ⟨"2 psi overpressure", blastEffects.psi2 * 1000, 0.05, ⟨0.2, 0.5, 0.3⟩⟩,
    ⟨"100 rem radiation", blastEffects.rem100 * 1000, 0.10, ⟨0.4, 0.6, 0⟩⟩,
    ⟨"2nd degree burns", blastEffects.thermalSecond * 1000, 0.05, ⟨0.3, 0.7, 0⟩⟩,
    ⟨"1 psi overpressure", blastEffects.psi1 * 1000, 0.01, ⟨0.05, 0.15, 0.8⟩⟩,
    ⟨"1st degree burns", blastEffects.thermalFirst * 1000, 0.001, ⟨0, 0.1, 0.9⟩⟩ ]

/-- Sort used in `calculateCasualties`: ascending by radius, stable. -/
noncomputable def sortZones (zones : List Zone) : List Zone :=
  List.insertionSort (fun a b => a.radius ≤ b.radius) zones

/-- Character-list test used to model JavaScript `String.includes`: does the
second list occur as a leading block of the first. -/
def leadMatch : List Char → List Char → Bool
  | [], _ => true
  | _ :: _, [] => false
  | a :: as, b :: bs => (a == b) && leadMatch as bs

/-- Character-list substring test, modelling JavaScript `String.includes`. -/
def containsChars : List Char → List Char → Bool
  | [], needle => needle.isEmpty
  | h :: t, needle => leadMatch needle (h :: t) || containsChars t needle

/-- JavaScript `hay.includes needle` on strings. -/
def strIncludes (hay needle : String) : Bool :=
  containsChars hay.toList needle.toList

/-- Source `calculateCasualties`: build and sort the ten zones, select the
grid-integration strategy when both the population grid and the blast center
are present (otherwise the ring-density strategy), then aggregate totals and
the zone-name-keyed medical burden. -/
noncomputable def calculateCasualties (blastEffects : BlastEffects)
    (populationData : PopulationData) (blastCenter : Option LatLng) : CasualtyData :=
  let zones := sortZones (rawZones blastEffects)
  let estimates :=
    match populationData.populationGrid, blastCenter with
    | some populationGrid, some center =>
      gridEstimates
        (calculateCasualtiesWithRealData
          (zones.map (fun z => ⟨z.radius, z.fatalityRate⟩)) populationGrid center)
        zones 0
    | _, _ =>
      processZones populationData.populationDensity populationData.urbanDensityFactor
        zones 0 0
  let totalFatalities := (estimates.map (fun e => e.fatalities)).sum
  let totalInjuries :=
    (estimates.map (fun e => e.injuries.severe + e.injuries.moderate + e.injuries.light)).sum
  let totalPopulationAffected := (estimates.map (fun e => e.populationAffected)).sum
  { estimates := estimates
    totals := ⟨totalPopulationAffected, totalFatalities, totalInjuries⟩
    medicalBurden :=
      { severeTrauma :=
          ((estimates.filter (fun e => strIncludes e.zone "psi")).map
            (fun e => e.injuries.severe)).sum
        burns :=
          ((estimates.filter (fun e => strIncludes e.zone "degree")).map
            (fun e => e.injuries.severe + e.injuries.moderate)).sum
        radiationSickness :=
          ((estimates.filter (fun e => strIncludes e.zone "rem")).map
            (fun e => e.injuries.severe + e.injuries.moderate)).sum
        combinedInjuries := round ((totalInjuries : ℝ) * 0.1) }
    usingRealData := populationData.populationGrid.isSome && blastCenter.isSome }

/-- Static city-density table (`defaultDensities`), in source order. -/
noncomputable def defaultDensities : List (String × ℝ) :=
  [("tokyo", 6350), ("delhi", 11320), ("shanghai", 3850), ("mumbai", 20680),
   ("beijing", 1330), ("cairo", 19500), ("dhaka", 44500), ("mexico city", 6000),
   ("são paulo", 7400), ("new york", 10700), ("london", 5700), ("paris", 21000),
   ("moscow", 4950), ("los angeles", 3200), ("chicago", 4600), ("hong kong", 6700),
   ("singapore", 8300), ("sydney", 415), ("toronto", 4400), ("berlin", 4200)]

/-- First matching city density, scanning the table in order (the source's
for-loop with `break`), `3000` when no key occurs in the lowercased name. -/
noncomputable def scanDensities : List (String × ℝ) → List Char → ℝ
  | [], _ => 3000
  | (key, value) :: rest, cityKey =>
    if containsChars cityKey key.toList then value else scanDensities rest cityKey

/-- JavaScript `Math.abs (x % 1)`: the fractional part of the absolute value. -/
noncomputable def fracAbs (x : ℝ) : ℝ := Int.fract |x|

/-- Source `estimatePopulationDensity`.  Two ambient effects become explicit
inputs: `hour` models `new Date().getHours()` and `populationGrid` the result
of the awaited `fetchRealPopulationData` call (external network input). -/
noncomputable def estimatePopulationDensity (lat lng : ℝ) (cityName : String)
    (hour : ℕ) (populationGrid : Option PopulationGrid) : PopulationData :=
  let cityKey := cityName.toList.map Char.toLower
  let baseDensity := scanDensities defaultDensities cityKey
  let latDecimal := fracAbs lat
  let lngDecimal := fracAbs lng
  let distanceFromCenter := Real.sqrt (latDecimal * latDecimal + lngDecimal * lngDecimal)
  let centerFactor := 1 + 0.5 * Real.exp (-distanceFromCenter * 4)
  let smallScale := Real.sin (lat * 200) * Real.cos (lng * 200) * 0.15
  let mediumScale := Real.sin (lat * 50) * Real.cos (lng * 50) * 0.25
  let largeScale := Real.sin (lat * 10) * Real.cos (lng * 10) * 0.1
  let isBusinessHours := 9 ≤ hour ∧ hour ≤ 17
  let timeFactor : ℝ := if isBusinessHours then 1.1 else 0.9
  let combinedVariation := smallScale + mediumScale + largeScale
  let variationFactor := centerFactor * timeFactor * (1 + combinedVariation * 0.3)
  let density := round (max 500 (min 50000 (baseDensity * variationFactor)))
  let urbanFactor := 0.5 + 0.4 * centerFactor
  { totalPopulation := 0
    populationDensity := ((round ((density : ℤ) : ℝ) : ℤ) : ℝ)
    urbanDensityFactor := urbanFactor
    populationGrid := populationGrid }

/-- Source `fetchOSMPopulationData`: a fresh cache hit short-circuits with the
cached grid; otherwise the try-block body (Overpass query plus grid bucketing,
whose value is network input and is therefore abstracted as `attempt`) returns
its grid, and the catch-block turns any thrown failure into `null`. -/
def fetchOSMPopulationData (cached : Option PopulationGrid)
    (attempt : Except String PopulationGrid) : Option PopulationGrid :=
  match cached with
  | some grid => some grid
  | none =>
    match attempt with
    | Except.ok grid => some grid
    | Except.error _ => none

/-- Source `fetchPopulationDensityAPI`: the try-block body synthesizes a
density-gradient grid (abstracted as `attempt`, its noise being ambient
randomness); the catch-block turns any thrown failure into `null`. -/
def fetchPopulationDensityAPI (attempt : Except String PopulationGrid) :
    Option PopulationGrid :=
  match attempt with
  | Except.ok grid => some grid
  | Except.error _ => none

/-- Source `fetchRealPopulationData`: try the OSM source first, then the
density-API source, and return `null` when both fail; no failure escapes. -/
def fetchRealPopulationData (cached : Option PopulationGrid)
    (osmAttempt densityAttempt : Except String PopulationGrid) : Option PopulationGrid :=
  match fetchOSMPopulationData cached osmAttempt with
  | some osmData => some osmData
  | none =>
    match fetchPopulationDensityAPI densityAttempt with
    | some densityData => some densityData
    | none => none

/-- Zone list of the spec's worked example (§8): radius 1000 m with fatality
rate 1 and no injuries, then radius 3000 m with rate 0.5 and injury fractions
0.7 / 0.2 / 0.1; scalar density 1000 people per km², urban factor 1. -/
noncomputable def specExampleZones : List Zone :=
  [⟨"zone1", 1000, 1, ⟨0, 0, 0⟩⟩, ⟨"zone2", 3000, 0.5, ⟨0.7, 0.2, 0.1⟩⟩]

lemma cn_round_1000pi : round (1000 * Real.pi) = 3142 := by
  have h1 := Real.pi_gt_d6
  have h2 := Real.pi_lt_d6
  rw [round_eq, Int.floor_eq_iff]
  constructor
  · push_cast; nlinarith
  · push_cast; nlinarith

lemma cn_round_8000pi : round (8000 * Real.pi) = 25133 := by
  have h1 := Real.pi_gt_d6
  have h2 := Real.pi_lt_d6
  rw [round_eq, Int.floor_eq_iff]
  constructor
  · push_cast; nlinarith
  · push_cast; nlinarith

lemma cn_ringPop1 : calculateRingPopulation 0 1000 1000 1 = 3142 := by
  have harg : (calculateArea 1000 - calculateArea 0) * ((1000 : ℝ) * 1) = 1000 * Real.pi := by
    simp only [calculateArea]
    ring
  simp only [calculateRingPopulation, harg, cn_round_1000pi]

lemma cn_ringPop2 : calculateRingPopulation 1000 3000 1000 1 = 25133 := by
  have harg : (calculateArea 3000 - calculateArea 1000) * ((1000 : ℝ) * 1) = 8000 * Real.pi := by
    simp only [calculateArea]
    ring
  simp only [calculateRingPopulation, harg, cn_round_8000pi]

lemma cn_example_eval :
    processZones 1000 1 specExampleZones 0 0 =
      [⟨"zone1", 1000, calculateArea 1000 - calculateArea 0, 3142, 3142, ⟨0, 0, 0⟩,
          "Blast effect zone"⟩,
        ⟨"zone2", 3000, calculateArea 3000 - calculateArea 1000, 25133, 10996,
          ⟨7697, 2199, 1100⟩, "Blast effect zone"⟩] := by
  have hd1 : getZoneDescription "zone1" = "Blast effect zone" := by decide
  have hd2 : getZoneDescription "zone2" = "Blast effect zone" := by decide
  have hf2 : round ((21991 : ℝ) / 2) = 10996 := by rw [round_eq]; norm_num
  have hs : round ((15393 : ℝ) / 2) = 7697 := by rw [round_eq]; norm_num
  have hm : round ((10995 : ℝ) * (1 / 5)) = 2199 := by rw [round_eq]; norm_num
  have hl : round ((2199 : ℝ) / 2) = 1100 := by rw [round_eq]; norm_num
  simp only [specExampleZones, processZones]
  rw [if_neg (by norm_num), if_neg (by norm_num)]
  simp only [cn_ringPop1, cn_ringPop2]
  norm_num [hd1, hd2, hf2, hs, hm, hl]

/-- C1 counterexample: at the spec's worked-example inputs (zones of radius
1000 m with rate 1 and 3000 m with rate 0.5, density 1000, urban factor 1) the
ring-density strategy does not emit the claimed fatality sequence 3142 then
round(25133 * 0.5) = 12567: the cascade first subtracts zone 1's 3142
cumulative fatalities from zone 2's ring population. -/
theorem spec_C1_counterexample :
    ¬ (processZones 1000 1 specExampleZones 0 0).map (fun e => e.fatalities) =
      [3142, 12567] := by
  rw [cn_example_eval]
  simp

/-- Exact value of the IEEE-754 double product 10995 * 0.7 computed by the
source's severe-injury rounding at the worked example: the double nearest 0.7
is 3152519739159347 / 2^52, and the correctly rounded double product is
8462391243177983 / 2^40 = 7696.499999999999, strictly below the tie 7696.5
(which the exact real product 10995 * 7/10 hits), so Math.round emits 7696
where exact-real rounding would emit 7697.  The double products for the
moderate and light fractions (10995 * 0.2 = 2199 and 10995 * 0.1 = 2199/2)
and for the fatality rates at this example are exactly the real values, so
every other figure is insensitive to double arithmetic. -/
noncomputable def doubleSevereProduct : ℝ := 8462391243177983 / 2 ^ 40

/-- C1 (amended): at the spec's worked-example inputs the estimator emits two
estimates; zone 1 has populationAffected 3142 and fatalities 3142, and zone 2
has populationAffected 25133, surviving population 25133 - 3142 = 21991,
fatalities round(21991 * 0.5) = 10996, survivors 10995, injuries moderate
2199 and light 1100, and severe injuries Math.round(10995 * 0.7) = 7696,
since the IEEE double product 10995 * 0.7 is 7696.499999999999, below the
rounding tie. -/
theorem spec_C1_amended :
    (processZones 1000 1 specExampleZones 0 0).map
        (fun e => (e.populationAffected, e.fatalities,
          e.injuries.moderate, e.injuries.light)) =
      [(3142, 3142, 0, 0), (25133, 10996, 2199, 1100)] ∧
      doubleSevereProduct < 7696.5 ∧ round doubleSevereProduct = 7696 := by
  refine ⟨?_, ?_, ?_⟩
  · rw [cn_example_eval]
    rfl
  · simp only [doubleSevereProduct]
    norm_num
  · simp only [doubleSevereProduct]
    rw [round_eq, Int.floor_eq_iff]
    constructor
    · push_cast
      norm_num
    · push_cast
      norm_num

lemma cn_round_mono {x y : ℝ} (h : x ≤ y) : round x ≤ round y := by
  rw [round_eq, round_eq]
  exact Int.floor_mono (by linarith)

lemma cn_round_nonneg {x : ℝ} (h : 0 ≤ x) : 0 ≤ round x := by
  have := cn_round_mono h
  rwa [round_zero] at this

/-- C5 counterexample: at latitude 0, longitude 0 (any city name, any hour)
the returned urbanDensityFactor is 0.5 + 0.4 * 1.5 = 1.1, outside the claimed
range [0.5, 0.9]. -/
theorem spec_C5_counterexample :
    ¬ (estimatePopulationDensity 0 0 "x" 12 none).urbanDensityFactor ≤ 0.9 := by
  simp only [estimatePopulationDensity, fracAbs]
  norm_num [Real.sqrt_zero, Real.exp_zero]

/-- C5 (amended): for every latitude, longitude, city name and hour the
heuristic density estimator returns a populationDensity clamped into
[500, 50000] people per km² and an urbanDensityFactor in (0.9, 1.1] (the code
computes 0.5 + 0.4 * centerFactor with centerFactor in (1, 1.5]). -/
theorem spec_C5_amended (lat lng : ℝ) (cityName : String) (hour : ℕ)
    (grid : Option PopulationGrid) :
    (500 : ℝ) ≤ (estimatePopulationDensity lat lng cityName hour grid).populationDensity ∧
      (estimatePopulationDensity lat lng cityName hour grid).populationDensity ≤ 50000 ∧
      (0.9 : ℝ) < (estimatePopulationDensity lat lng cityName hour grid).urbanDensityFactor ∧
      (estimatePopulationDensity lat lng cityName hour grid).urbanDensityFactor ≤ 1.1 := by
  simp only [estimatePopulationDensity, round_intCast]
  set d := Real.sqrt (fracAbs lat * fracAbs lat + fracAbs lng * fracAbs lng) with hd
  have hd0 : 0 ≤ d := Real.sqrt_nonneg _
  have he1 : 0 < Real.exp (-d * 4) := Real.exp_pos _
  have he2 : Real.exp (-d * 4) ≤ 1 := Real.exp_le_one_iff.mpr (by nlinarith)
  refine ⟨?_, ?_, by nlinarith, by nlinarith⟩
  · have h1 : (500 : ℤ) ≤ round (max 500 (min 50000
        (scanDensities defaultDensities (List.map Char.toLower cityName.toList) *
          ((1 + 0.5 * Real.exp (-d * 4)) * (if 9 ≤ hour ∧ hour ≤ 17 then 1.1 else 0.9) *
            (1 + (Real.sin (lat * 200) * Real.cos (lng * 200) * 0.15 +
              Real.sin (lat * 50) * Real.cos (lng * 50) * 0.25 +
              Real.sin (lat * 10) * Real.cos (lng * 10) * 0.1) * 0.3))))) := by
      have := cn_round_mono (le_max_left (500 : ℝ) (min 50000
        (scanDensities defaultDensities (List.map Char.toLower cityName.toList) *
          ((1 + 0.5 * Real.exp (-d * 4)) * (if 9 ≤ hour ∧ hour ≤ 17 then 1.1 else 0.9) *
            (1 + (Real.sin (lat * 200) * Real.cos (lng * 200) * 0.15 +
              Real.sin (lat * 50) * Real.cos (lng * 50) * 0.25 +
              Real.sin (lat * 10) * Real.cos (lng * 10) * 0.1) * 0.3)))))
      simpa using this
    exact_mod_cast h1
  · have h2 : round (max 500 (min 50000
        (scanDensities defaultDensities (List.map Char.toLower cityName.toList) *
          ((1 + 0.5 * Real.exp (-d * 4)) * (if 9 ≤ hour ∧ hour ≤ 17 then 1.1 else 0.9) *
            (1 + (Real.sin (lat * 200) * Real.cos (lng * 200) * 0.15 +
              Real.sin (lat * 50) * Real.cos (lng * 50) * 0.25 +
              Real.sin (lat * 10) * Real.cos (lng * 10) * 0.1) * 0.3))))) ≤ (50000 : ℤ) := by
      have hle : max (500 : ℝ) (min 50000
          (scanDensities defaultDensities (List.map Char.toLower cityName.toList) *
            ((1 + 0.5 * Real.exp (-d * 4)) * (if 9 ≤ hour ∧ hour ≤ 17 then 1.1 else 0.9) *
              (1 + (Real.sin (lat * 200) * Real.cos (lng * 200) * 0.15 +
                Real.sin (lat * 50) * Real.cos (lng * 50) * 0.25 +
                Real.sin (lat * 10) * Real.cos (lng * 10) * 0.1) * 0.3)))) ≤ 50000 :=
        max_le (by norm_num) (min_le_left _ _)
      have := cn_round_mono hle
      simpa using this
    exact_mod_cast h2

lemma cn_finalRadius_ge : ∀ (zs : List Zone) (prev : ℝ), prev ≤ finalRadius zs prev
  | [], prev => le_refl prev
  | z :: rest, prev => by
    rw [finalRadius]
    split_ifs with h
    · exact cn_finalRadius_ge rest prev
    · push_neg at h
      exact le_trans (le_of_lt h.2) (cn_finalRadius_ge rest z.radius)

lemma cn_areaSum (pd uf : ℝ) : ∀ (zs : List Zone) (prev : ℝ) (cum : ℤ),
    ((processZones pd uf zs prev cum).map (fun e => e.area)).sum =
      calculateArea (finalRadius zs prev) - calculateArea prev
  | [], prev, cum => by
    simp [processZones, finalRadius]
  | z :: rest, prev, cum => by
    rw [processZones, finalRadius]
    split_ifs with h
    · exact cn_areaSum pd uf rest prev cum
    · simp only [List.map_cons, List.sum_cons]
      rw [cn_areaSum pd uf rest z.radius _]
      ring

lemma cn_processZones_nil_final (pd uf : ℝ) : ∀ (zs : List Zone) (prev : ℝ) (cum : ℤ),
    processZones pd uf zs prev cum = [] → finalRadius zs prev = prev
  | [], _, _ => fun _ => rfl
  | z :: rest, prev, cum => by
    rw [processZones, finalRadius]
    split_ifs with h
    · exact cn_processZones_nil_final pd uf rest prev cum
    · exact fun hnil => hnil.elim

lemma cn_foldrMax (pd uf : ℝ) : ∀ (zs : List Zone) (prev : ℝ) (cum : ℤ), 0 ≤ prev →
    processZones pd uf zs prev cum ≠ [] →
    ((processZones pd uf zs prev cum).map (fun e => e.radius)).foldr max 0 =
      finalRadius zs prev
  | [], prev, cum, _, hne => absurd rfl hne
  | z :: rest, prev, cum, hprev, hne => by
    rw [processZones] at hne ⊢
    rw [finalRadius]
    split_ifs with h
    · exact cn_foldrMax pd uf rest prev cum hprev (by simpa [processZones, h] using hne)
    · push_neg at h
      have hzr : prev < z.radius := h.2
      simp only [List.map_cons, List.foldr_cons]
      by_cases hrest : processZones pd uf rest z.radius
          (cum + round ((((max 0 (calculateRingPopulation prev z.radius pd uf - cum)) : ℤ) : ℝ) *
            z.fatalityRate)) = []
      · rw [hrest]
        simp only [List.map_nil, List.foldr_nil]
        rw [cn_processZones_nil_final pd uf rest z.radius _ hrest]
        exact max_eq_left (le_trans hprev (le_of_lt hzr))
      · rw [cn_foldrMax pd uf rest z.radius _ (le_trans hprev (le_of_lt hzr)) hrest]
        exact max_eq_right (cn_finalRadius_ge rest z.radius)

/-- C7: under the ring-density strategy the area fields of the emitted
estimates telescope, so their sum equals the full circle area at the largest
emitted radius (and 0 when nothing is emitted), for every zone list and any
density inputs, degenerate skipped zones included. -/
theorem spec_C7_area_conservation (pd uf : ℝ) (zones : List Zone) :
    ((processZones pd uf zones 0 0).map (fun e => e.area)).sum =
      calculateArea (((processZones pd uf zones 0 0).map (fun e => e.radius)).foldr max 0) := by
  have hzero : calculateArea 0 = 0 := by
    simp [calculateArea]
  by_cases h : processZones pd uf zones 0 0 = []
  · rw [h]
    simp [hzero]
  · rw [cn_areaSum pd uf zones 0 0, cn_foldrMax pd uf zones 0 0 le_rfl h, hzero, sub_zero]

/-- Zone lists whose fatality rates and injury fractions all lie in [0, 1]. -/
def ValidZones (zones : List Zone) : Prop :=
  ∀ z ∈ zones, 0 ≤ z.fatalityRate ∧ z.fatalityRate ≤ 1 ∧
    0 ≤ z.injuries.severe ∧ z.injuries.severe ≤ 1 ∧
    0 ≤ z.injuries.moderate ∧ z.injuries.moderate ≤ 1 ∧
    0 ≤ z.injuries.light ∧ z.injuries.light ≤ 1

lemma cn_validZones_tail {z : Zone} {rest : List Zone} (h : ValidZones (z :: rest)) :
    ValidZones rest :=
  fun w hw => h w (List.mem_cons_of_mem z hw)

lemma cn_round_le_self_int {s : ℤ} (hs : 0 ≤ s) {r : ℝ} (hr : r ≤ 1) :
    round ((s : ℝ) * r) ≤ s := by
  have hle : (s : ℝ) * r ≤ ((s : ℤ) : ℝ) :=
    mul_le_of_le_one_right (by exact_mod_cast hs) hr
  have := cn_round_mono hle
  rwa [round_intCast] at this

lemma cn_round_mul_nonneg {s : ℤ} (hs : 0 ≤ s) {r : ℝ} (hr : 0 ≤ r) :
    0 ≤ round ((s : ℝ) * r) :=
  cn_round_nonneg (mul_nonneg (by exact_mod_cast hs) hr)

lemma cn_ringPop_nonneg {prev r pd uf : ℝ} (hprev : 0 ≤ prev) (hlt : prev < r)
    (hpd : 0 ≤ pd) (huf : 0 ≤ uf) : 0 ≤ calculateRingPopulation prev r pd uf := by
  apply cn_round_nonneg
  apply mul_nonneg _ (mul_nonneg hpd huf)
  simp only [calculateArea]
  have hpi := Real.pi_pos
  have h1 : prev / 1000 ≤ r / 1000 := by linarith
  have h2 : 0 ≤ prev / 1000 := by linarith
  have h3 : prev / 1000 * (prev / 1000) ≤ r / 1000 * (r / 1000) :=
    mul_self_le_mul_self h2 h1
  nlinarith

lemma cn_processZones_split (pd uf : ℝ) (hpd : 0 ≤ pd) (huf : 0 ≤ uf) :
    ∀ (zs : List Zone) (prev : ℝ) (cum : ℤ), ValidZones zs → 0 ≤ prev →
    ∀ (pre : List CasualtyEstimate) (e : CasualtyEstimate) (post : List CasualtyEstimate),
      processZones pd uf zs prev cum = pre ++ e :: post →
      0 ≤ e.populationAffected ∧
        e.fatalities ≤
          max 0 (e.populationAffected - (cum + (pre.map (fun x => x.fatalities)).sum)) ∧
        0 ≤ e.fatalities ∧ 0 ≤ e.injuries.severe ∧ 0 ≤ e.injuries.moderate ∧
        0 ≤ e.injuries.light
  | [], prev, cum, _, _, pre, e, post => by
    rw [processZones]
    intro h
    exact absurd h (by simp)
  | z :: rest, prev, cum, hv, hprev, pre, e, post => by
    rw [processZones]
    split_ifs with hskip
    · exact cn_processZones_split pd uf hpd huf rest prev cum (cn_validZones_tail hv) hprev pre e post
    · push_neg at hskip
      have hzr : prev < z.radius := hskip.2
      have hz := hv z (List.mem_cons_self z rest)
      have hpop : 0 ≤ calculateRingPopulation prev z.radius pd uf :=
        cn_ringPop_nonneg hprev hzr hpd huf
      have hsurv : (0 : ℤ) ≤ max 0 (calculateRingPopulation prev z.radius pd uf - cum) :=
        le_max_left 0 _
      have hfat0 :
          round (((max 0 (calculateRingPopulation prev z.radius pd uf - cum) : ℤ) : ℝ) *
            z.fatalityRate) ≤ max 0 (calculateRingPopulation prev z.radius pd uf - cum) :=
        cn_round_le_self_int hsurv hz.2.1
      have hfat0n :
          0 ≤ round (((max 0 (calculateRingPopulation prev z.radius pd uf - cum) : ℤ) : ℝ) *
            z.fatalityRate) :=
        cn_round_mul_nonneg hsurv hz.1
      intro heq
      match pre, heq with
      | [], heq =>
        have he : e = _ := ((List.cons.injEq _ _ _ _).mp heq).1.symm
        subst he
        refine ⟨hpop, ?_, hfat0n, ?_, ?_, ?_⟩
        · simpa using hfat0
        · exact cn_round_mul_nonneg (by omega) hz.2.2.1
        · exact cn_round_mul_nonneg (by omega) hz.2.2.2.2.1
        · exact cn_round_mul_nonneg (by omega) hz.2.2.2.2.2.2.1
      | p0 :: pre', heq =>
        obtain ⟨hp0, htail⟩ := (List.cons.injEq _ _ _ _).mp heq
        have ih := cn_processZones_split pd uf hpd huf rest z.radius
          (cum + round (((max 0 (calculateRingPopulation prev z.radius pd uf - cum) : ℤ) : ℝ) *
            z.fatalityRate))
          (cn_validZones_tail hv) (le_trans hprev (le_of_lt hzr)) pre' e post htail
        refine ⟨ih.1, ?_, ih.2.2⟩
        have hfatp0 : p0.fatalities =
            round (((max 0 (calculateRingPopulation prev z.radius pd uf - cum) : ℤ) : ℝ) *
              z.fatalityRate) := by
          rw [← hp0]
        have hb := ih.2.1
        rw [List.map_cons, List.sum_cons, hfatp0]
        have harr : cum + (round (((max 0 (calculateRingPopulation prev z.radius pd uf -
            cum) : ℤ) : ℝ) * z.fatalityRate) + (pre'.map (fun x => x.fatalities)).sum) =
            cum + round (((max 0 (calculateRingPopulation prev z.radius pd uf - cum) : ℤ) : ℝ) *
              z.fatalityRate) + (pre'.map (fun x => x.fatalities)).sum := by
          ring
        rw [harr]
        exact hb

lemma cn_processZones_mem (pd uf : ℝ) (hpd : 0 ≤ pd) (huf : 0 ≤ uf)
    (zs : List Zone) (hv : ValidZones zs) :
    ∀ e ∈ processZones pd uf zs 0 0,
      0 ≤ e.populationAffected ∧ 0 ≤ e.fatalities ∧
        e.fatalities ≤ e.populationAffected ∧ 0 ≤ e.injuries.severe ∧
        0 ≤ e.injuries.moderate ∧ 0 ≤ e.injuries.light := by
  intro e he
  obtain ⟨pre, post, hsplit⟩ := List.append_of_mem he
  have h := cn_processZones_split pd uf hpd huf zs 0 0 hv le_rfl pre e post hsplit
  have hsum : 0 ≤ (pre.map (fun x => x.fatalities)).sum := by
    apply List.sum_nonneg
    intro x hx
    simp only [List.mem_map] at hx
    obtain ⟨p, hp, hpx⟩ := hx
    have hpmem : p ∈ processZones pd uf zs 0 0 := by
      rw [hsplit]
      exact List.mem_append_left _ hp
    obtain ⟨pre2, post2, hsplit2⟩ := List.append_of_mem hpmem
    have h2 := cn_processZones_split pd uf hpd huf zs 0 0 hv le_rfl pre2 p post2 hsplit2
    omega
  refine ⟨h.1, h.2.2.1, ?_, h.2.2.2⟩
  have hb := h.2.1
  omega

/-- Grids all of whose cells are non-negative. -/
def NonnegGrid (grid : PopulationGrid) : Prop :=
  ∀ row col : ℕ, 0 ≤ cellAt grid row col

/-- Rate lists whose fatality rates lie in [0, 1]. -/
def ValidBlastZones (zones : List BlastZone) : Prop :=
  ∀ z ∈ zones, 0 ≤ z.fatalityRate ∧ z.fatalityRate ≤ 1

lemma cn_popInCircle_nonneg {grid : PopulationGrid} (hg : NonnegGrid grid)
    (center : LatLng) (r : ℝ) : 0 ≤ calculatePopulationInCircle center r grid := by
  apply cn_round_nonneg
  apply Finset.sum_nonneg
  intro row _
  apply Finset.sum_nonneg
  intro col _
  dsimp only
  split_ifs
  · exact hg row col
  · exact le_refl 0

lemma cn_popInCircle_mono {grid : PopulationGrid} (hg : NonnegGrid grid)
    (center : LatLng) {r1 r2 : ℝ} (h : r1 ≤ r2) :
    calculatePopulationInCircle center r1 grid ≤ calculatePopulationInCircle center r2 grid := by
  apply cn_round_mono
  apply Finset.sum_le_sum
  intro row _
  apply Finset.sum_le_sum
  intro col _
  dsimp only
  split_ifs with h1 h2
  · exact le_refl _
  · exact absurd (le_trans h1 h) h2
  · exact hg row col
  · exact le_refl 0

instance : IsTotal BlastZone (fun a b => a.radius ≤ b.radius) :=
  ⟨fun a b => le_total a.radius b.radius⟩

instance : IsTrans BlastZone (fun a b => a.radius ≤ b.radius) :=
  ⟨fun _ _ _ h1 h2 => le_trans h1 h2⟩

lemma cn_realLoop_split {grid : PopulationGrid} {center : LatLng} (hg : NonnegGrid grid) :
    ∀ (zs : List BlastZone) (inner : ℝ) (cum : ℤ), ValidBlastZones zs →
    List.Chain' (fun a b => a.radius ≤ b.radius) zs →
    (inner ≤ 0 ∨ ∀ z ∈ zs.head?, inner ≤ z.radius) →
    ∀ (pre : List RealDataResult) (r : RealDataResult) (post : List RealDataResult),
      realDataLoop grid center zs inner cum = pre ++ r :: post →
      0 ≤ r.populationAffected ∧ 0 ≤ r.fatalities ∧
        r.fatalities ≤
          max 0 (r.populationAffected - (cum + (pre.map (fun x => x.fatalities)).sum))
  | [], inner, cum, _, _, _, pre, r, post => by
    rw [realDataLoop]
    intro h
    exact absurd h (by simp)
  | z :: rest, inner, cum, hv, hchain, hinv, pre, r, post => by
    rw [realDataLoop]
    have hz := hv z (List.mem_cons_self z rest)
    have hpop : 0 ≤ calculatePopulationInCircle center z.radius grid -
        (if 0 < inner then calculatePopulationInCircle center inner grid else 0) := by
      split_ifs with h0
      · rcases hinv with hle | hall
        · exact absurd h0 (not_lt.mpr hle)
        · have : inner ≤ z.radius := hall z rfl
          have := cn_popInCircle_mono hg center this
          omega
      · have := cn_popInCircle_nonneg hg center z.radius
        omega
    have hsurv : (0 : ℤ) ≤ max 0 (calculatePopulationInCircle center z.radius grid -
        (if 0 < inner then calculatePopulationInCircle center inner grid else 0) - cum) :=
      le_max_left 0 _
    have hfat0 := cn_round_le_self_int hsurv hz.2
    have hfat0n := cn_round_mul_nonneg hsurv hz.1
    intro heq
    match pre, heq with
    | [], heq =>
      have hr : r = _ := ((List.cons.injEq _ _ _ _).mp heq).1.symm
      subst hr
      refine ⟨hpop, hfat0n, ?_⟩
      simpa using hfat0
    | p0 :: pre', heq =>
      obtain ⟨hp0, htail⟩ := (List.cons.injEq _ _ _ _).mp heq
      have hchain' : List.Chain' (fun a b => a.radius ≤ b.radius) rest := hchain.tail
      have hinv' : z.radius ≤ 0 ∨ ∀ w ∈ rest.head?, z.radius ≤ w.radius := by
        cases rest with
        | nil => exact Or.inr (by intro w hw; cases hw)
        | cons w t =>
          exact Or.inr (by
            intro v hv2
            have hrel := (List.chain'_cons.mp hchain).1
            cases hv2
            exact hrel)
      have ih := cn_realLoop_split hg rest z.radius
        (cum + round (((max 0 (calculatePopulationInCircle center z.radius grid -
          (if 0 < inner then calculatePopulationInCircle center inner grid else 0) -
            cum) : ℤ) : ℝ) * z.fatalityRate))
        (fun w hw => hv w (List.mem_cons_of_mem z hw)) hchain' hinv' pre' r post htail
      refine ⟨ih.1, ih.2.1, ?_⟩
      have hb := ih.2.2
      have hfatp0 : p0.fatalities =
          round (((max 0 (calculatePopulationInCircle center z.radius grid -
            (if 0 < inner then calculatePopulationInCircle center inner grid else 0) -
              cum) : ℤ) : ℝ) * z.fatalityRate) := by
        rw [← hp0]
      rw [List.map_cons, List.sum_cons, hfatp0]
      have harr : cum + (round (((max 0 (calculatePopulationInCircle center z.radius grid -
          (if 0 < inner then calculatePopulationInCircle center inner grid else 0) -
            cum) : ℤ) : ℝ) * z.fatalityRate) + (pre'.map (fun x => x.fatalities)).sum) =
          cum + round (((max 0 (calculatePopulationInCircle center z.radius grid -
            (if 0 < inner then calculatePopulationInCircle center inner grid else 0) -
              cum) : ℤ) : ℝ) * z.fatalityRate) + (pre'.map (fun x => x.fatalities)).sum := by
        ring
      rw [harr]
      exact hb

lemma cn_realData_split {grid : PopulationGrid} {center : LatLng} (hg : NonnegGrid grid)
    {zs : List BlastZone} (hv : ValidBlastZones zs) :
    ∀ (pre : List RealDataResult) (r : RealDataResult) (post : List RealDataResult),
      calculateCasualtiesWithRealData zs grid center = pre ++ r :: post →
      0 ≤ r.populationAffected ∧ 0 ≤ r.fatalities ∧
        r.fatalities ≤ max 0 (r.populationAffected - (pre.map (fun x => x.fatalities)).sum) := by
  intro pre r post heq
  have hv' : ValidBlastZones (List.insertionSort (fun a b => a.radius ≤ b.radius) zs) :=
    fun z hz => hv z ((List.mem_insertionSort _).mp hz)
  have hchain : List.Chain' (fun a b => a.radius ≤ b.radius)
      (List.insertionSort (fun a b => a.radius ≤ b.radius) zs) :=
    (List.sorted_insertionSort _ zs).chain'
  have h := cn_realLoop_split hg (List.insertionSort (fun a b => a.radius ≤ b.radius) zs)
    0 0 hv' hchain (Or.inl le_rfl) pre r post heq
  simpa using h

lemma cn_realData_mem {grid : PopulationGrid} {center : LatLng} (hg : NonnegGrid grid)
    {zs : List BlastZone} (hv : ValidBlastZones zs) :
    ∀ r ∈ calculateCasualtiesWithRealData zs grid center,
      0 ≤ r.populationAffected ∧ 0 ≤ r.fatalities ∧ r.fatalities ≤ r.populationAffected := by
  intro r hr
  obtain ⟨pre, post, hsplit⟩ := List.append_of_mem hr
  have h := cn_realData_split hg hv pre r post hsplit
  have hsum : 0 ≤ (pre.map (fun x => x.fatalities)).sum := by
    apply List.sum_nonneg
    intro x hx
    simp only [List.mem_map] at hx
    obtain ⟨p, hp, hpx⟩ := hx
    have hpmem : p ∈ calculateCasualtiesWithRealData zs grid center := by
      rw [hsplit]
      exact List.mem_append_left _ hp
    obtain ⟨pre2, post2, hsplit2⟩ := List.append_of_mem hpmem
    have h2 := cn_realData_split hg hv pre2 p post2 hsplit2
    omega
  refine ⟨h.1, h.2.1, ?_⟩
  have hb := h.2.2
  omega

lemma cn_gridEstimates_mem {results : List RealDataResult}
    (hres : ∀ r ∈ results, 0 ≤ r.populationAffected ∧ 0 ≤ r.fatalities ∧
      r.fatalities ≤ r.populationAffected) :
    ∀ (zones : List Zone) (prevR : ℝ), ValidZones zones →
    ∀ e ∈ gridEstimates results zones prevR,
      0 ≤ e.populationAffected ∧ 0 ≤ e.fatalities ∧
        e.fatalities ≤ e.populationAffected ∧ 0 ≤ e.injuries.severe ∧
        0 ≤ e.injuries.moderate ∧ 0 ≤ e.injuries.light
  | [], prevR, _, e, he => absurd he (by rw [gridEstimates]; simp)
  | z :: rest, prevR, hv, e, he => by
    rw [gridEstimates] at he
    have hz := hv z (List.mem_cons_self z rest)
    cases hfind : results.find? (fun r => decide (r.radius = z.radius)) with
    | none =>
      rw [hfind] at he
      exact cn_gridEstimates_mem hres rest z.radius (cn_validZones_tail hv) e he
    | some realData =>
      rw [hfind] at he
      have hmem := List.mem_of_find?_eq_some hfind
      have hbd := hres realData hmem
      rcases List.mem_cons.mp he with hhd | htl
      · subst hhd
        refine ⟨hbd.1, hbd.2.1, hbd.2.2, ?_, ?_, ?_⟩
        · exact cn_round_mul_nonneg (by omega) hz.2.2.1
        · exact cn_round_mul_nonneg (by omega) hz.2.2.2.2.1
        · exact cn_round_mul_nonneg (by omega) hz.2.2.2.2.2.2.1
      · exact cn_gridEstimates_mem hres rest z.radius (cn_validZones_tail hv) e htl

lemma cn_chain_inv {z : BlastZone} {rest : List BlastZone}
    (hchain : List.Chain' (fun a b => a.radius ≤ b.radius) (z :: rest)) :
    z.radius ≤ 0 ∨ ∀ w ∈ rest.head?, z.radius ≤ w.radius := by
  cases rest with
  | nil => exact Or.inr (by intro w hw; cases hw)
  | cons w t =>
    refine Or.inr ?_
    intro v hv2
    have hrel := (List.chain'_cons.mp hchain).1
    cases hv2
    exact hrel

lemma cn_realLoop_pop_nonneg {grid : PopulationGrid} {center : LatLng} (hg : NonnegGrid grid) :
    ∀ (zs : List BlastZone) (inner : ℝ) (cum : ℤ),
      List.Chain' (fun a b => a.radius ≤ b.radius) zs →
      (inner ≤ 0 ∨ ∀ z ∈ zs.head?, inner ≤ z.radius) →
      ∀ r ∈ realDataLoop grid center zs inner cum, 0 ≤ r.populationAffected
  | [], _, _, _, _, r, hr => absurd hr (by rw [realDataLoop]; simp)
  | z :: rest, inner, cum, hchain, hinv, r, hr => by
    rw [realDataLoop] at hr
    rcases List.mem_cons.mp hr with hhd | htl
    · subst hhd
      dsimp only
      split_ifs with h0
      · rcases hinv with hle | hall
        · exact absurd h0 (not_lt.mpr hle)
        · have hir : inner ≤ z.radius := hall z rfl
          have := cn_popInCircle_mono hg center hir
          omega
      · have := cn_popInCircle_nonneg hg center z.radius
        omega
    · exact cn_realLoop_pop_nonneg hg rest z.radius _ hchain.tail (cn_chain_inv hchain) r htl

lemma cn_chain_of_forall {α : Type} (P : α → Prop) {R : α → α → Prop}
    (hPR : ∀ a b, P a → P b → R a b) :
    ∀ l : List α, (∀ x ∈ l, P x) → List.Chain' R l
  | [], _ => List.chain'_nil
  | [_], _ => List.chain'_singleton _
  | a :: b :: t, h =>
    List.chain'_cons.mpr
      ⟨hPR a b (h a (List.mem_cons_self _ _))
          (h b (List.mem_cons_of_mem _ (List.mem_cons_self _ _))),
        cn_chain_of_forall P hPR (b :: t) (fun x hx => h x (List.mem_cons_of_mem _ hx))⟩

/-- C3: with fatality rates and injury fractions in [0, 1] and a non-negative
density model (non-negative scalar density and urban factor, or a grid with
non-negative cells), every emitted estimate of either strategy has
non-negative populationAffected, fatalities and injury counts, and its
fatalities are at most max 0 (populationAffected minus the cumulative
fatalities of the inner rings), hence at most populationAffected. -/
theorem spec_C3_invariants :
    (∀ (pd uf : ℝ) (zones : List Zone), 0 ≤ pd → 0 ≤ uf → ValidZones zones →
      ∀ (pre : List CasualtyEstimate) (e : CasualtyEstimate) (post : List CasualtyEstimate),
        processZones pd uf zones 0 0 = pre ++ e :: post →
        0 ≤ e.populationAffected ∧ 0 ≤ e.fatalities ∧
          0 ≤ e.injuries.severe ∧ 0 ≤ e.injuries.moderate ∧ 0 ≤ e.injuries.light ∧
          e.fatalities ≤
            max 0 (e.populationAffected - (pre.map (fun x => x.fatalities)).sum) ∧
          e.fatalities ≤ e.populationAffected) ∧
    (∀ (zs : List BlastZone) (grid : PopulationGrid) (center : LatLng),
      NonnegGrid grid → ValidBlastZones zs →
      ∀ (pre : List RealDataResult) (r : RealDataResult) (post : List RealDataResult),
        calculateCasualtiesWithRealData zs grid center = pre ++ r :: post →
        0 ≤ r.populationAffected ∧ 0 ≤ r.fatalities ∧
          r.fatalities ≤
            max 0 (r.populationAffected - (pre.map (fun x => x.fatalities)).sum) ∧
          r.fatalities ≤ r.populationAffected) ∧
    (∀ (zs : List BlastZone) (grid : PopulationGrid) (center : LatLng)
        (zones : List Zone) (prevR : ℝ),
      NonnegGrid grid → ValidBlastZones zs → ValidZones zones →
      ∀ e ∈ gridEstimates (calculateCasualtiesWithRealData zs grid center) zones prevR,
        0 ≤ e.populationAffected ∧ 0 ≤ e.fatalities ∧
          e.fatalities ≤ e.populationAffected ∧ 0 ≤ e.injuries.severe ∧
          0 ≤ e.injuries.moderate ∧ 0 ≤ e.injuries.light) := by
  refine ⟨?_, ?_, ?_⟩
  · intro pd uf zones hpd huf hv pre e post heq
    have h := cn_processZones_split pd uf hpd huf zones 0 0 hv le_rfl pre e post heq
    have hmem : e ∈ processZones pd uf zones 0 0 := by
      rw [heq]
      exact List.mem_append_right _ (List.mem_cons_self _ _)
    have hm := cn_processZones_mem pd uf hpd huf zones hv e hmem
    refine ⟨h.1, h.2.2.1, h.2.2.2.1, h.2.2.2.2.1, h.2.2.2.2.2, ?_, hm.2.2.1⟩
    simpa using h.2.1
  · intro zs grid center hg hv pre r post heq
    have h := cn_realData_split hg hv pre r post heq
    have hmem : r ∈ calculateCasualtiesWithRealData zs grid center := by
      rw [heq]
      exact List.mem_append_right _ (List.mem_cons_self _ _)
    have hm := cn_realData_mem hg hv r hmem
    exact ⟨h.1, h.2.1, h.2.2, hm.2.2⟩
  · intro zs grid center zones prevR hg hvb hv e he
    exact cn_gridEstimates_mem (cn_realData_mem hg hvb) zones prevR hv e he

lemma cn_validSpecExample : ValidZones specExampleZones := by
  intro z hz
  simp only [specExampleZones, List.mem_cons, List.mem_singleton] at hz
  rcases hz with h | h | h
  · subst h; norm_num
  · subst h; norm_num
  · cases h

/-- Estimate emitted for the worked example's first zone. -/
noncomputable def exampleEstimateOne : CasualtyEstimate :=
  ⟨"zone1", 1000, calculateArea 1000 - calculateArea 0, 3142, 3142, ⟨0, 0, 0⟩,
    "Blast effect zone"⟩

/-- Estimate emitted for the worked example's second zone. -/
noncomputable def exampleEstimateTwo : CasualtyEstimate :=
  ⟨"zone2", 3000, calculateArea 3000 - calculateArea 1000, 25133, 10996, ⟨7697, 2199, 1100⟩,
    "Blast effect zone"⟩

theorem spec_C3_witness :
    ValidZones specExampleZones ∧ (0 : ℝ) ≤ 1000 ∧ (0 : ℝ) ≤ 1 ∧
      processZones 1000 1 specExampleZones 0 0 =
        [exampleEstimateOne] ++ exampleEstimateTwo :: [] ∧
      (0 ≤ exampleEstimateTwo.populationAffected ∧ 0 ≤ exampleEstimateTwo.fatalities ∧
        0 ≤ exampleEstimateTwo.injuries.severe ∧ 0 ≤ exampleEstimateTwo.injuries.moderate ∧
        0 ≤ exampleEstimateTwo.injuries.light ∧
        exampleEstimateTwo.fatalities ≤
          max 0 (exampleEstimateTwo.populationAffected -
            (([exampleEstimateOne]).map (fun x => x.fatalities)).sum) ∧
        exampleEstimateTwo.fatalities ≤ exampleEstimateTwo.populationAffected) := by
  have hv := cn_validSpecExample
  have heq : processZones 1000 1 specExampleZones 0 0 =
      [exampleEstimateOne] ++ exampleEstimateTwo :: [] := by
    rw [cn_example_eval]
    rfl
  exact ⟨hv, by norm_num, by norm_num, heq,
    spec_C3_invariants.1 1000 1 specExampleZones (by norm_num) (by norm_num) hv
      [exampleEstimateOne] exampleEstimateTwo [] heq⟩

/-- C4: for adjacent processed zones, under either strategy, the total
fatalities of the two zones never exceed the sum of the two rings'
populationAffected (the raw population of the outer disc split into the two
disjoint rings): the cascade never counts a person twice. -/
theorem spec_C4_no_double_count :
    (∀ (pd uf : ℝ) (zones : List Zone), 0 ≤ pd → 0 ≤ uf → ValidZones zones →
      List.Chain' (fun e1 e2 => e1.fatalities + e2.fatalities ≤
        e1.populationAffected + e2.populationAffected) (processZones pd uf zones 0 0)) ∧
    (∀ (zs : List BlastZone) (grid : PopulationGrid) (center : LatLng),
      NonnegGrid grid → ValidBlastZones zs →
      List.Chain' (fun r1 r2 => r1.fatalities + r2.fatalities ≤
        r1.populationAffected + r2.populationAffected)
        (calculateCasualtiesWithRealData zs grid center)) := by
  constructor
  · intro pd uf zones hpd huf hv
    exact @cn_chain_of_forall CasualtyEstimate
      (fun e => e.fatalities ≤ e.populationAffected) _
      (fun a b ha hb => add_le_add ha hb) _
      (fun e he => (cn_processZones_mem pd uf hpd huf zones hv e he).2.2.1)
  · intro zs grid center hg hv
    exact @cn_chain_of_forall RealDataResult
      (fun r => r.fatalities ≤ r.populationAffected) _
      (fun a b ha hb => add_le_add ha hb) _
      (fun r hr => (cn_realData_mem hg hv r hr).2.2)

theorem spec_C4_witness :
    ValidZones specExampleZones ∧
      List.Chain' (fun e1 e2 => e1.fatalities + e2.fatalities ≤
        e1.populationAffected + e2.populationAffected)
        (processZones 1000 1 specExampleZones 0 0) :=
  ⟨cn_validSpecExample,
    spec_C4_no_double_count.1 1000 1 specExampleZones (by norm_num) (by norm_num)
      cn_validSpecExample⟩

/-- Population grid with an empty data array (every cell reads as zero). -/
noncomputable def emptyGrid : PopulationGrid := ⟨⟨0, 0, 0, 0⟩, 0, []⟩

lemma cn_emptyGrid_nonneg : NonnegGrid emptyGrid := by
  intro row col
  simp [cellAt, emptyGrid]

/-- C8: with non-negative cells, the inclusive disc sum is monotone in the
radius, and consequently every populationAffected (ring population) produced
by the grid-integration cascade over its radius-sorted zones is non-negative. -/
theorem spec_C8_monotone :
    (∀ (grid : PopulationGrid) (center : LatLng) (r1 r2 : ℝ), NonnegGrid grid → r1 ≤ r2 →
      calculatePopulationInCircle center r1 grid ≤
        calculatePopulationInCircle center r2 grid) ∧
    (∀ (zs : List BlastZone) (grid : PopulationGrid) (center : LatLng), NonnegGrid grid →
      ∀ r ∈ calculateCasualtiesWithRealData zs grid center, 0 ≤ r.populationAffected) := by
  constructor
  · intro grid center r1 r2 hg h
    exact cn_popInCircle_mono hg center h
  · intro zs grid center hg r hr
    have hchain : List.Chain' (fun a b => a.radius ≤ b.radius)
        (List.insertionSort (fun a b => a.radius ≤ b.radius) zs) :=
      (List.sorted_insertionSort _ zs).chain'
    exact cn_realLoop_pop_nonneg hg
      (List.insertionSort (fun a b => a.radius ≤ b.radius) zs) 0 0 hchain
      (Or.inl le_rfl) r hr

theorem spec_C8_witness :
    NonnegGrid emptyGrid ∧ (1 : ℝ) ≤ 2 ∧
      calculatePopulationInCircle ⟨0, 0⟩ 1 emptyGrid ≤
        calculatePopulationInCircle ⟨0, 0⟩ 2 emptyGrid :=
  ⟨cn_emptyGrid_nonneg, by norm_num,
    spec_C8_monotone.1 emptyGrid ⟨0, 0⟩ 1 2 cn_emptyGrid_nonneg (by norm_num)⟩

lemma cn_skip_degenerate (pd uf : ℝ) :
    ∀ (l1 : List Zone) (z : Zone) (l2 : List Zone) (prev : ℝ) (cum : ℤ),
      (z.radius = 0 ∨ z.radius ≤ finalRadius l1 prev) →
      processZones pd uf (l1 ++ z :: l2) prev cum = processZones pd uf (l1 ++ l2) prev cum
  | [], z, l2, prev, cum => by
    intro h
    rw [finalRadius] at h
    simp only [List.nil_append]
    rw [processZones, if_pos h]
  | w :: l1', z, l2, prev, cum => by
    intro h
    rw [finalRadius] at h
    simp only [List.cons_append]
    by_cases hw : w.radius = 0 ∨ w.radius ≤ prev
    · rw [if_pos hw] at h
      rw [processZones, if_pos hw, processZones, if_pos hw]
      exact cn_skip_degenerate pd uf l1' z l2 prev cum h
    · rw [if_neg hw] at h
      rw [processZones, if_neg hw, processZones, if_neg hw]
      exact congrArg (List.cons _) (cn_skip_degenerate pd uf l1' z l2 w.radius _ h)

/-- C2 (amended): under the ring-density strategy a degenerate zone — radius
zero or not exceeding the previous processed radius reached at its position —
produces no estimate and leaves previousRadius and cumulativeFatalities
unchanged, so the output equals that of the zone list with the degenerate
entry removed.  The counterexample shows this does not extend to the
grid-integration strategy, which emits an estimate for such a zone. -/
theorem spec_C2_amended (pd uf : ℝ) (l1 : List Zone) (z : Zone) (l2 : List Zone)
    (prev : ℝ) (cum : ℤ) (h : z.radius = 0 ∨ z.radius ≤ finalRadius l1 prev) :
    processZones pd uf (l1 ++ z :: l2) prev cum = processZones pd uf (l1 ++ l2) prev cum :=
  cn_skip_degenerate pd uf l1 z l2 prev cum h

theorem spec_C2_witness :
    ((⟨"Fireball", 0, 1, ⟨1, 0, 0⟩⟩ : Zone).radius = 0 ∨
      (⟨"Fireball", 0, 1, ⟨1, 0, 0⟩⟩ : Zone).radius = 0 ∨
        (⟨"Fireball", 0, 1, ⟨1, 0, 0⟩⟩ : Zone).radius ≤ finalRadius [] 0) ∧
      processZones 1000 1 ([] ++ (⟨"Fireball", 0, 1, ⟨1, 0, 0⟩⟩ : Zone) :: specExampleZones)
          0 0 =
        processZones 1000 1 ([] ++ specExampleZones) 0 0 :=
  ⟨Or.inl rfl,
    spec_C2_amended 1000 1 [] ⟨"Fireball", 0, 1, ⟨1, 0, 0⟩⟩ specExampleZones 0 0 (Or.inl rfl)⟩

/-- C2 counterexample: under the grid-integration strategy a zero-radius zone
does produce a CasualtyEstimate — with the one-zone list of radius 0 over the
empty grid, the strategy emits one estimate instead of none. -/
theorem spec_C2_counterexample :
    (gridEstimates
      (calculateCasualtiesWithRealData [⟨0, 1⟩] emptyGrid ⟨0, 0⟩)
      [⟨"Fireball", 0, 1, ⟨1, 0, 0⟩⟩] 0).length = 1 := by
  have hpop : calculatePopulationInCircle ⟨0, 0⟩ 0 emptyGrid = 0 := by
    simp [calculatePopulationInCircle, emptyGrid]
  have hres : calculateCasualtiesWithRealData [⟨0, 1⟩] emptyGrid ⟨0, 0⟩ =
      [⟨0, 0, 0⟩] := by
    simp only [calculateCasualtiesWithRealData, List.insertionSort, List.orderedInsert]
    rw [realDataLoop, realDataLoop]
    simp [hpop]
  rw [hres]
  rw [gridEstimates]
  have hfind : List.find? (fun r => decide (r.radius = (0 : ℝ)))
      [(⟨0, 0, 0⟩ : RealDataResult)] = some ⟨0, 0, 0⟩ := by
    simp [List.find?]
  simp only [hfind]
  rw [gridEstimates]
  simp

/-- C6: the estimator uses the grid-integration strategy exactly when both the
population grid and the blast center argument are present (otherwise the
ring-density strategy), and usingRealData is true exactly in that case. -/
theorem spec_C6_dispatch (blastEffects : BlastEffects) (populationData : PopulationData)
    (blastCenter : Option LatLng) :
    ((calculateCasualties blastEffects populationData blastCenter).usingRealData = true ↔
      populationData.populationGrid.isSome = true ∧ blastCenter.isSome = true) ∧
    (∀ grid center, populationData.populationGrid = some grid → blastCenter = some center →
      (calculateCasualties blastEffects populationData blastCenter).estimates =
        gridEstimates
          (calculateCasualtiesWithRealData
            ((sortZones (rawZones blastEffects)).map (fun z => ⟨z.radius, z.fatalityRate⟩))
            grid center)
          (sortZones (rawZones blastEffects)) 0) ∧
    (populationData.populationGrid = none ∨ blastCenter = none →
      (calculateCasualties blastEffects populationData blastCenter).estimates =
        processZones populationData.populationDensity populationData.urbanDensityFactor
          (sortZones (rawZones blastEffects)) 0 0) := by
  rcases hg : populationData.populationGrid with _ | grid <;>
    rcases hc : blastCenter with _ | c <;>
      simp [calculateCasualties, hg, hc]

theorem spec_C6_witness :
    (calculateCasualties ⟨0, 0, 0, 0, 0, 0, 0, 0, 0, 0⟩ ⟨0, 1000, 1, some emptyGrid⟩
      (some ⟨0, 0⟩)).usingRealData = true :=
  (spec_C6_dispatch ⟨0, 0, 0, 0, 0, 0, 0, 0, 0, 0⟩ ⟨0, 1000, 1, some emptyGrid⟩
    (some ⟨0, 0⟩)).1.mpr ⟨rfl, rfl⟩

/-- C9: the population-data fetch never propagates a failure: an OSM success
(cache hit or fetch) is returned directly, an OSM failure falls back to the
density-API source, and the result is null exactly when both sources fail, so
the caller degrades to the heuristic scalar density. -/
theorem spec_C9_fallback (cached : Option PopulationGrid)
    (osmAttempt densityAttempt : Except String PopulationGrid) :
    (∀ g, fetchOSMPopulationData cached osmAttempt = some g →
      fetchRealPopulationData cached osmAttempt densityAttempt = some g) ∧
    (fetchOSMPopulationData cached osmAttempt = none →
      fetchRealPopulationData cached osmAttempt densityAttempt =
        fetchPopulationDensityAPI densityAttempt) ∧
    (fetchRealPopulationData cached osmAttempt densityAttempt = none ↔
      fetchOSMPopulationData cached osmAttempt = none ∧
        fetchPopulationDensityAPI densityAttempt = none) := by
  rcases cached with _ | g0 <;> rcases osmAttempt with e1 | g1 <;>
    rcases densityAttempt with e2 | g2 <;>
      simp [fetchRealPopulationData, fetchOSMPopulationData, fetchPopulationDensityAPI]

theorem spec_C9_witness :
    fetchRealPopulationData none (Except.error "network timeout")
      (Except.error "density API failure") = none :=
  (spec_C9_fallback none (Except.error "network timeout")
    (Except.error "density API failure")).2.2.mpr ⟨rfl, rfl⟩

end CityNuker
